import Mathlib

/-!
Shallow embedding of `examples/COUPLE/lammps_vasp/vasp_wrap.py`, the CSlib
server wrapper around VASP, together with the claims about its coupling
protocol.  Python floats are modelled as rationals (the claims under study
are about which values are selected and exchanged, not about rounding),
Python ints as `Int`, fallible Python operations (indexing, parsing,
unbound locals) as `Option`/`Except`.
-/

namespace VaspWrap

/-! ### Models of the Python builtins used by the script -/

/-- Split a character list into maximal whitespace-free words. -/
def pySplitAux : List Char → List Char → List (List Char)
  | [], acc => if acc.isEmpty then [] else [acc.reverse]
  | c :: cs, acc =>
    if c.isWhitespace then
      (if acc.isEmpty then pySplitAux cs [] else acc.reverse :: pySplitAux cs [])
    else pySplitAux cs (c :: acc)

/-- Modelled from the spec: Python `str.split()` with no argument — split on
whitespace runs, discarding empty words. -/
def pySplit (s : String) : List String :=
  (pySplitAux s.toList []).map (fun w => String.mk w)

/-- Value of a list of decimal digit characters. -/
def digitsVal (cs : List Char) : Nat :=
  cs.foldl (fun a c => 10 * a + (c.toNat - 48)) 0

/-- Strip one optional leading sign; returns (negative?, rest). -/
def parseSign : List Char → Bool × List Char
  | '-' :: cs => (true, cs)
  | '+' :: cs => (false, cs)
  | cs => (false, cs)

/-- Mantissa of a float literal: digits with an optional fractional part. -/
def parseMant (cs : List Char) : Option ℚ :=
  let (ip, rest) := cs.span Char.isDigit
  match rest with
  | [] => if ip.isEmpty then none else some (digitsVal ip : ℚ)
  | '.' :: fp =>
    if fp.all Char.isDigit && !(ip.isEmpty && fp.isEmpty) then
      some ((digitsVal ip : ℚ) + (digitsVal fp : ℚ) / (10 : ℚ) ^ fp.length)
    else none
  | _ => none

/-- Exponent of a float literal: optional sign then digits. -/
def parseExpPart (cs : List Char) : Option Int :=
  let (neg, ds) := parseSign cs
  if ds.isEmpty || !ds.all Char.isDigit then none
  else some (if neg then -(digitsVal ds : Int) else (digitsVal ds : Int))

/-- Scale a rational by a power of ten. -/
def applyExp (q : ℚ) (e : Int) : ℚ :=
  if 0 ≤ e then q * (10 : ℚ) ^ e.toNat else q / (10 : ℚ) ^ (-e).toNat

/-- Modelled from the spec: Python `float(s)` on the decimal subset actually
occurring in POSCAR/vasprun data (sign, digits, fraction, exponent); parse
failure (Python `ValueError`) is `none`. -/
def parseFloat? (s : String) : Option ℚ :=
  let cs := ((s.toList.dropWhile Char.isWhitespace).reverse.dropWhile
    Char.isWhitespace).reverse
  let (neg, cs1) := parseSign cs
  let (mcs, ecs) := cs1.span (fun c => !(c == 'e' || c == 'E'))
  let res : Option ℚ :=
    match ecs with
    | [] => parseMant mcs
    | _ :: rest => do
        let m ← parseMant mcs
        let e ← parseExpPart rest
        pure (applyExp m e)
  res.map (fun q => if neg then -q else q)

/-- Modelled from the spec: Python `int(s)`; `ValueError` is `none`. -/
def parseInt? (s : String) : Option Int :=
  let cs := ((s.toList.dropWhile Char.isWhitespace).reverse.dropWhile
    Char.isWhitespace).reverse
  let (neg, ds) := parseSign cs
  if ds.isEmpty || !ds.all Char.isDigit then none
  else some (if neg then -(digitsVal ds : Int) else (digitsVal ds : Int))

/-! ### Message model

Modelled from the spec: the CSlib library itself is not under `src/` (only
its installer is), so the Message/Field data model follows spec section 3:
a message is `{message_id, ordered fields}`, a field is
`{field_id, type_tag, payload}`; `unpack_string`/`unpack` retrieve a field's
payload by field ID. -/

/-- Payload of one field: int array, float array, or string. -/
inductive FieldData
  | ints (l : List Int)
  | floats (l : List ℚ)
  | str (s : String)
deriving DecidableEq

/-- One received field: id, CSlib type tag, payload. -/
structure InField where
  fieldID : Int
  ftype : Int
  fdata : FieldData
deriving DecidableEq

/-- A received message, as produced by `cs.recv()`. -/
structure InMsg where
  msgID : Int
  fields : List InField
deriving DecidableEq

/-- One packed output field: id, CSlib type tag (4 = double), declared
element count, payload. -/
structure OutField where
  fieldID : Int
  ftype : Int
  flen : Int
  fdata : List ℚ
deriving DecidableEq

/-- A sent message: `cs.send(msgID, nfield)` followed by the packed fields. -/
structure OutMsg where
  msgID : Int
  nfield : Int
  fields : List OutField
deriving DecidableEq

/-- Find a field of a received message by field ID. -/
def findField (m : InMsg) (fid : Int) : Option InField :=
  m.fields.find? (fun f => f.fieldID == fid)

/-- Modelled from the spec: `cs.unpack_string(fid)` — the STRING payload of
the field with ID `fid`. -/
def unpackString (m : InMsg) (fid : Int) : Option String :=
  match findField m fid with
  | some f => match f.fdata with | .str s => some s | _ => none
  | none => none

/-- Modelled from the spec: `cs.unpack(fid, 1)` — the float-array payload of
the field with ID `fid`. -/
def unpack (m : InMsg) (fid : Int) : Option (List ℚ) :=
  match findField m fid with
  | some f => match f.fdata with | .floats l => some l | _ => none
  | none => none

/-! ### Enums of vasp_wrap.py (lines 36-38), matching FixClientMD -/

def SETUP : Int := 1
def STEP : Int := 2
def UNITS : Int := 1
def DIM : Int := 2
def NATOMS : Int := 3
def NTYPES : Int := 4
def BOXLO : Int := 5
def BOXHI : Int := 6
def BOXTILT : Int := 7
def TYPES : Int := 8
def COORDS : Int := 9
def CHARGE : Int := 10
def FORCES : Int := 1
def ENERGY : Int := 2
def VIRIAL : Int := 3

/-! ### error() and argument parsing (lines 45-47, 164-175) -/

/-- Outcome of a deliberate process termination: the text printed and the
exit status passed to `sys.exit`. -/
structure ProcTermination where
  output : String
  exitStatus : Nat
deriving DecidableEq

/-- `error(txt)`: print `ERROR: txt` and `sys.exit(1)` (lines 45-47). -/
def error (txt : String) : ProcTermination :=
  { output := "ERROR: " ++ txt, exitStatus := 1 }

/-- The syntax message printed on bad command-line arguments. -/
def syntaxMsg : String := "Syntax: python vasp_wrap.py file/zmq POSCARfile"

/-- Arguments passed to the `CSlib` constructor: csflag, mode, address. -/
structure CSlibArgs where
  csflag : Int
  mode : String
  addr : String
deriving DecidableEq

/-- Lines 164-175: command-line handling. `argv` models `sys.argv` (script
name included). On success yields the CSlib constructor arguments (the
transport is only opened in the `file`/`zmq` branches) and the POSCAR
template name; otherwise the process prints the syntax message and exits 1
before any transport is opened. -/
def parse_args (argv : List String) : Except ProcTermination (CSlibArgs × String) :=
  if argv.length ≠ 3 then .error ⟨syntaxMsg, 1⟩
  else
    let mode := argv.getD 1 ""
    let poscar := argv.getD 2 ""
    if mode = "file" then .ok (⟨1, mode, "tmp.couple"⟩, poscar)
    else if mode = "zmq" then .ok (⟨1, mode, "*:5555"⟩, poscar)
    else .error ⟨syntaxMsg, 1⟩

/-! ### vasp_setup (lines 53-75) -/

/-- The loop over `ps[6].split()` (lines 69-73): words up to a `#` each
bump `ntypes` by one and add their integer value to `natoms`.  Returns
`(ntypes, natoms)`. -/
def countWords (ws : List String) : Option (Int × Int) :=
  (ws.takeWhile (fun w => w ≠ "#")).foldlM
    (fun acc w => (parseInt? w).map (fun k => (acc.1 + 1, acc.2 + k))) (0, 0)

/-- `vasp_setup(poscar)` (lines 53-75): read the box lengths from lines
2-4 of the POSCAR template and the type/atom counts from line 6; returns
`(natoms, ntypes, box)`.  `ps` is the list of lines of the file. -/
def vasp_setup (ps : List String) : Option (Int × Int × List ℚ) := do
  let l2 ← ps.get? 2
  let xbox ← (pySplit l2).get? 0 >>= parseFloat?
  let l3 ← ps.get? 3
  let ybox ← (pySplit l3).get? 1 >>= parseFloat?
  let l4 ← ps.get? 4
  let zbox ← (pySplit l4).get? 2 >>= parseFloat?
  let l6 ← ps.get? 6
  let nn ← countWords (pySplit l6)
  pure (nn.2, nn.1, [xbox, ybox, zbox])

/-! ### poscar_write (lines 80-109) -/

/-- One line of the POSCAR file written by `poscar_write`, kept structured
(the `%g` rendering of numbers is not modelled). -/
inductive PLine
  | raw (s : String)
  | boxX (v : ℚ)
  | boxY (v : ℚ)
  | boxZ (v : ℚ)
  | cartesian
  | atom (x y z : ℚ)
deriving DecidableEq

/-- Body of the inner loop of `poscar_write` (lines 101-107): index
`types[i]` (Python `IndexError` is `none`), skip atoms of other types,
otherwise emit the atom's three coordinates. -/
def poscarAtomStep (types : List Int) (coords : List ℚ) (itype : Int)
    (acc : List PLine) (i : Nat) : Option (List PLine) := do
  let ti ← types.get? i
  if ti ≠ itype then pure acc
  else do
    let x ← coords.get? (3 * i)
    let y ← coords.get? (3 * i + 1)
    let z ← coords.get? (3 * i + 2)
    pure (acc ++ [PLine.atom x y z])

/-- Python `range(1, n+1)`. -/
def pyRange1 (n : Int) : List Int :=
  (List.range n.toNat).map (fun k : Nat => 1 + (k : Int))

/-- The nested per-type, per-atom loops of `poscar_write` (lines 100-107). -/
def poscarBody (natoms ntypes : Int) (types : List Int) (coords : List ℚ) :
    Option (List PLine) :=
  (pyRange1 ntypes).foldlM
    (fun acc itype =>
      (List.range natoms.toNat).foldlM (poscarAtomStep types coords itype) acc)
    []

/-- `poscar_write` (lines 80-109): header lines 0-1 and 5-6 of the old
template, the three box lines, `Cartesian`, then per-atom coordinate lines
grouped by type.  Returns `none` where Python raises `IndexError`. -/
def poscar_write (psold : List String) (natoms ntypes : Int) (types : List Int)
    (coords : List ℚ) (box : List ℚ) : Option (List PLine) := do
  let l0 ← psold.get? 0
  let l1 ← psold.get? 1
  let b0 ← box.get? 0
  let b1 ← box.get? 1
  let b2 ← box.get? 2
  let l5 ← psold.get? 5
  let l6 ← psold.get? 6
  let body ← poscarBody natoms ntypes types coords
  pure ([PLine.raw l0, PLine.raw l1, PLine.boxX b0, PLine.boxY b1,
      PLine.boxZ b2, PLine.raw l5, PLine.raw l6, PLine.cartesian] ++ body)

/-! ### vasprun_read (lines 116-157) -/

/-- One self-consistent step of vasprun.xml.  `energy` is the first
`<energy>` child (`find('energy')`), `none` when absent; its children are
`(name attribute, text)` pairs. -/
structure SCStep where
  energy : Option (List (String × String))
deriving DecidableEq

/-- One `calculation/varray` element of vasprun.xml: the `name` attribute
and the text of each `<v>` child. -/
structure Varray where
  name : String
  rows : List String
deriving DecidableEq

/-- Lines 125-127: scan the energy element's children, `float`-parsing each
one named `e_0_energy`; the last match is kept, and an unbound `eout`
(no match at all, Python `NameError`) is `none`. -/
def readEnergy (items : List (String × String)) : Option ℚ := do
  let vs ← ((items.filter (fun it => it.1 == "e_0_energy")).map
    Prod.snd).mapM parseFloat?
  vs.getLast?

/-- Parse one `<v>` line into floats (lines 137-138, 144-145). -/
def parseRow (s : String) : Option (List ℚ) :=
  (pySplit s).mapM parseFloat?

/-- Lines 134-139: concatenate the parsed rows of every varray named
`forces`, in file order. -/
def readForces (vs : List Varray) : Option (List ℚ) :=
  (vs.filter (fun v => v.name == "forces")).foldlM
    (fun acc va => do
      let rows ← va.rows.mapM parseRow
      pure (acc ++ rows.flatten))
    []

/-- Lines 147-153: diagonal entries and averaged off-diagonal entries of a
3x3 stress tensor (Python `IndexError` on a smaller tensor is `none`). -/
def stressFromTensor (st : List (List ℚ)) : Option (List ℚ) := do
  let r0 ← st.get? 0
  let r1 ← st.get? 1
  let r2 ← st.get? 2
  let sxx ← r0.get? 0
  let syy ← r1.get? 1
  let szz ← r2.get? 2
  let s01 ← r0.get? 1
  let s10 ← r1.get? 0
  let s02 ← r0.get? 2
  let s20 ← r2.get? 0
  let s12 ← r1.get? 2
  let s21 ← r2.get? 1
  pure [sxx, syy, szz, (1 / 2 : ℚ) * (s01 + s10), (1 / 2 : ℚ) * (s02 + s20),
    (1 / 2 : ℚ) * (s12 + s21)]

/-- Lines 140-153: `sout` starts as `[]` and is overwritten by the stress
of each varray named `stress` (the last one wins). -/
def readStress (vs : List Varray) : Option (List ℚ) :=
  (vs.filter (fun v => v.name == "stress")).foldlM
    (fun _acc va => do
      let st ← va.rows.mapM parseRow
      stressFromTensor st)
    []

/-- `vasprun_read()` (lines 116-157): energy from the `e_0_energy` entry of
the last `calculation/scstep`, forces flattened in file order, and the
6-component virial.  `none` where the Python code raises. -/
def vasprun_read (scsteps : List SCStep) (varrays : List Varray) :
    Option (ℚ × List ℚ × List ℚ) := do
  let ls ← scsteps.getLast?
  let items ← ls.energy
  let eout ← readEnergy items
  let fout ← readForces varrays
  let sout ← readStress varrays
  pure (eout, fout, sout)

/-! ### Server session (lines 177-234) -/

/-- Per-session configuration of the server: the values from `vasp_setup`,
the POSCAR template lines, and the external VASP computation (launch plus
`vasprun_read`, lines 212-219) abstracted as an opaque function from the
received coordinates to `(energy, forces, virial)`. -/
structure Config where
  natoms : Int
  ntypes : Int
  box : List ℚ
  psold : List String
  ext : List ℚ → ℚ × List ℚ × List ℚ

/-- Line 206: `types = 2*[1]`, the fixed two-entry type list the step
handler substitutes for every request. -/
def stepTypes : List Int := List.replicate 2 1

/-- Ways one step-loop iteration can crash with a Python exception. -/
inductive StepErr
  | unpackFailed
  | poscarFailed
deriving DecidableEq

/-- Lines 204-226, the body of one processed step request: unpack COORDS,
substitute `types = 2*[1]`, write the POSCAR (crashing on `IndexError`),
run the opaque external computation, and build the reply:
`send(msgID, 3)` with FORCES (type 4, declared length `3*natoms`), ENERGY
(type 4, scalar), VIRIAL (type 4, length 6). -/
def serverStep (cfg : Config) (m : InMsg) : Except StepErr (List ℚ × OutMsg) :=
  match unpack m COORDS with
  | none => .error .unpackFailed
  | some coords =>
    match poscar_write cfg.psold cfg.natoms cfg.ntypes stepTypes coords cfg.box with
    | none => .error .poscarFailed
    | some _ =>
      let res := cfg.ext coords
      .ok (coords, ⟨m.msgID, 3,
        [⟨FORCES, 4, 3 * cfg.natoms, res.2.1⟩,
         ⟨ENERGY, 4, 1, [res.1]⟩,
         ⟨VIRIAL, 4, 6, res.2.2⟩]⟩)

/-- Observable events of a session: a blocking receive, a send, or an
invocation of the external computation. -/
inductive Event
  | recvE (m : InMsg)
  | sendE (m : OutMsg)
  | vaspE (coords : List ℚ)
deriving DecidableEq

/-- How a session run ends. -/
inductive SessionOutcome
  | finished
  | starved
  | crashed (e : StepErr)
  | exited (t : ProcTermination)
  | unmodelled
deriving DecidableEq

/-- A session run: the event trace and how it ended. -/
structure SessionRun where
  trace : List Event
  outcome : SessionOutcome
deriving DecidableEq

/-- Lines 189-230: the endless server loop over the incoming messages,
breaking only on a negative message ID and then sending the final
`send(0,0)`; `starved` marks a run whose input list ends while the server
is still blocked in `recv`. -/
def serverLoopRun (cfg : Config) : List InMsg → SessionRun
  | [] => ⟨[], .starved⟩
  | m :: rest =>
    if m.msgID < 0 then ⟨[.recvE m, .sendE ⟨0, 0, []⟩], .finished⟩
    else
      match serverStep cfg m with
      | .error e => ⟨[.recvE m], .crashed e⟩
      | .ok (coords, out) =>
        let r := serverLoopRun cfg rest
        ⟨.recvE m :: .vaspE coords :: .sendE out :: r.trace, r.outcome⟩

/-- Result of the handshake phase. -/
inductive HandshakeResult
  | fatal (t : ProcTermination)
  | accepted (ack : OutMsg)
deriving DecidableEq

/-- Lines 181-185: the initial handshake.  A non-zero message ID or a
protocol string other than `md` calls `error(...)`; on success the server
replies `send(0,0)`.  `none` marks the unmodelled CSlib behaviour of
`unpack_string(1)` when field 1 is absent or not a string. -/
def handshake (m : InMsg) : Option HandshakeResult :=
  if m.msgID ≠ 0 then some (.fatal (error "Bad initial client/server handshake"))
  else
    (unpackString m 1).map (fun protocol =>
      if protocol ≠ "md" then .fatal (error "Mismatch in client/server protocol")
      else .accepted ⟨0, 0, []⟩)

/-- Lines 177-234: the whole session — handshake on the first received
message, then the step loop. -/
def serverSessionRun (cfg : Config) : List InMsg → SessionRun
  | [] => ⟨[], .starved⟩
  | h :: rest =>
    match handshake h with
    | some (.fatal t) => ⟨[.recvE h], .exited t⟩
    | some (.accepted ack) =>
      let r := serverLoopRun cfg rest
      ⟨.recvE h :: .sendE ack :: r.trace, r.outcome⟩
    | none => ⟨[.recvE h], .unmodelled⟩

/-- Communication events (receives and sends, the wire traffic). -/
def Event.isComm : Event → Bool
  | .recvE _ => true
  | .sendE _ => true
  | .vaspE _ => false

/-- The wire traffic of a trace. -/
def comms (t : List Event) : List Event := t.filter Event.isComm

/-- Strict alternation: the trace is receive/send pairs, possibly ending in
a lone receive — never two sends without an intervening receive, and never
a send first. -/
def recvThenSend : List Event → Bool
  | [] => true
  | [.recvE _] => true
  | .recvE _ :: .sendE _ :: rest => recvThenSend rest
  | _ => false

/-! ### Concrete instances used to exercise the embedding -/

/-- A trivial external computation standing in for the opaque VASP call. -/
def ext0 : List ℚ → ℚ × List ℚ × List ℚ := fun _ => (0, [], [])

/-- A concrete two-atom configuration (POSCAR template with seven lines,
`natoms = 2`, `ntypes = 1`). -/
def cfgW : Config := ⟨2, 1, [6, 6, 6], ["A", "B", "x", "y", "z", "Si", "2"], ext0⟩

/-- The well-formed handshake message: ID 0, one STRING field `md`. -/
def mdMsg : InMsg := ⟨0, [⟨1, 5, .str "md"⟩]⟩

/-! ### Helper lemmas -/

/-- A monadic fold over `Option` dies as soon as it meets an element on
which the step function always fails. -/
lemma foldlM_none {α β : Type} (f : β → α → Option β) {l : List α} {a : α}
    (ha : a ∈ l) (hf : ∀ b, f b a = none) : ∀ init, l.foldlM f init = none := by
  induction l with
  | nil => exact absurd ha (List.not_mem_nil a)
  | cons x xs ih =>
    intro init
    rw [List.foldlM_cons]
    rcases List.mem_cons.mp ha with h | h
    · subst h
      rw [hf init]
      rfl
    · cases hx : f init x with
      | none => rfl
      | some b => exact ih h b

/-- A monadic fold over `Option` on a nonempty list whose step function
always fails returns `none`. -/
lemma foldlM_none_of_all {α β : Type} (f : β → α → Option β) {l : List α}
    (hl : l ≠ []) (hf : ∀ b a, f b a = none) : ∀ init, l.foldlM f init = none := by
  cases l with
  | nil => exact absurd rfl hl
  | cons x xs =>
    intro init
    rw [List.foldlM_cons, hf init x]
    rfl

/-- With the substituted two-entry type list, the per-atom loop body fails
at atom index 2 for every type and accumulator. -/
lemma poscarAtomStep_stepTypes_two (coords : List ℚ) (itype : Int)
    (acc : List PLine) : poscarAtomStep stepTypes coords itype acc 2 = none := rfl

/-- For more than two atoms and at least one type, the nested loops of
`poscar_write` always hit the out-of-range access `types[2]`. -/
lemma poscarBody_stepTypes_none {natoms ntypes : Int} (h3 : 2 < natoms)
    (h1 : 1 ≤ ntypes) (coords : List ℚ) :
    poscarBody natoms ntypes stepTypes coords = none := by
  have h2 : 2 ∈ List.range natoms.toNat := by
    rw [List.mem_range]
    omega
  have hne : pyRange1 ntypes ≠ [] := by
    have hlen : (pyRange1 ntypes).length = ntypes.toNat := by
      simp [pyRange1]
    refine List.length_pos.mp ?_
    rw [hlen]
    omega
  exact foldlM_none_of_all _ hne
    (fun acc itype =>
      foldlM_none _ h2 (fun b => poscarAtomStep_stepTypes_two coords itype b) acc) []

/-- If the loop body of `poscar_write` fails, the whole write fails. -/
lemma poscar_write_eq_none {psold : List String} {natoms ntypes : Int}
    {types : List Int} {coords : List ℚ} {box : List ℚ}
    (hb : poscarBody natoms ntypes types coords = none) :
    poscar_write psold natoms ntypes types coords box = none := by
  unfold poscar_write
  cases psold.get? 0 <;> cases psold.get? 1 <;> cases box.get? 0 <;>
    cases box.get? 1 <;> cases box.get? 2 <;> cases psold.get? 5 <;>
    cases psold.get? 6 <;> simp [hb]

/-- The first component produced by the `countWords` fold counts the
processed words. -/
lemma countWords_fold_fst (l : List String) :
    ∀ (nt0 na0 nt na : Int),
      l.foldlM (fun acc w => (parseInt? w).map (fun k => (acc.1 + 1, acc.2 + k)))
          (nt0, na0) = some (nt, na) →
      nt = nt0 + l.length := by
  induction l with
  | nil =>
    intro nt0 na0 nt na hfold
    simp only [List.foldlM_nil, Option.pure_def, Option.some.injEq,
      Prod.mk.injEq] at hfold
    simp only [List.length_nil, Nat.cast_zero]
    omega
  | cons x xs ih =>
    intro nt0 na0 nt na hfold
    rw [List.foldlM_cons] at hfold
    cases hx : parseInt? x with
    | none =>
      simp only [hx, Option.map_none', Option.bind_eq_bind', Option.none_bind] at hfold
      exact Option.noConfusion hfold
    | some k =>
      simp only [hx, Option.map_some', Option.bind_eq_bind', Option.some_bind] at hfold
      have hnext := ih (nt0 + 1) (na0 + k) nt na hfold
      simp only [List.length_cons]
      push_cast
      omega

/-- A POSCAR line-6 count with a positive atom total has at least one
type. -/
lemma countWords_ntypes_pos {ws : List String} {nt na : Int}
    (hcw : countWords ws = some (nt, na)) (hna : 0 < na) : 1 ≤ nt := by
  unfold countWords at hcw
  have hfst := countWords_fold_fst (ws.takeWhile (fun w => w ≠ "#")) 0 0 nt na hcw
  by_contra hc
  push_neg at hc
  have hlen : (ws.takeWhile (fun w => w ≠ "#")).length = 0 := by omega
  rw [List.eq_nil_of_length_eq_zero hlen] at hcw
  simp only [List.foldlM_nil, Option.pure_def, Option.some.injEq,
    Prod.mk.injEq] at hcw
  omega

/-- `vasp_setup` never reports a positive atom count with zero types: every
word of line 6 contributes one type. -/
lemma vasp_setup_ntypes_pos {ps : List String} {natoms ntypes : Int}
    {box : List ℚ} (hsetup : vasp_setup ps = some (natoms, ntypes, box))
    (hna : 0 < natoms) : 1 ≤ ntypes := by
  simp only [vasp_setup, Option.bind_eq_bind', Option.bind_eq_some, Option.pure_def,
    Option.some.injEq, Prod.mk.injEq] at hsetup
  obtain ⟨l2, -, x, -, l3, -, y, -, l4, -, z, -, l6, -, ⟨nt, na⟩, hnn, hnat, hnty, -⟩ :=
    hsetup
  dsimp only at hnat hnty
  exact hnty ▸ countWords_ntypes_pos hnn (by omega)

@[simp] lemma isComm_recvE (m : InMsg) : Event.isComm (.recvE m) = true := rfl

@[simp] lemma isComm_sendE (m : OutMsg) : Event.isComm (.sendE m) = true := rfl

@[simp] lemma isComm_vaspE (c : List ℚ) : Event.isComm (.vaspE c) = false := rfl

@[simp] lemma recvThenSend_pair (a : InMsg) (b : OutMsg) (l : List Event) :
    recvThenSend (.recvE a :: .sendE b :: l) = recvThenSend l := rfl

@[simp] lemma recvThenSend_nil : recvThenSend [] = true := rfl

@[simp] lemma recvThenSend_single (a : InMsg) : recvThenSend [.recvE a] = true := rfl

/-- `stressFromTensor` on an explicit 3x3 tensor. -/
lemma stressFromTensor_explicit (a b c d f g h i j : ℚ) :
    stressFromTensor [[a, b, c], [d, f, g], [h, i, j]] =
      some [a, f, j, (1 / 2 : ℚ) * (b + d), (1 / 2 : ℚ) * (c + h),
        (1 / 2 : ℚ) * (g + i)] := rfl

/-- Every wire trace of the step loop strictly alternates receive/send. -/
lemma loop_alternates (cfg : Config) (msgs : List InMsg) :
    recvThenSend (comms (serverLoopRun cfg msgs).trace) = true := by
  induction msgs with
  | nil => rfl
  | cons m rest ih =>
    by_cases hm : m.msgID < 0
    · simp [serverLoopRun, hm, comms, recvThenSend]
    · cases hs : serverStep cfg m with
      | error e => simp [serverLoopRun, hm, hs, comms, recvThenSend]
      | ok p =>
        obtain ⟨coords, out⟩ := p
        simpa [serverLoopRun, hm, hs, comms] using ih

/-! ### The claims -/

/-- C1: the claim says receipt of an ID-0, zero-field (all-done) message
stops the server's receive loop without processing it as a step, and that
it is the only self-terminating message.  The code (and the comment above
line 195, `msgID = 0 = all-done message`, notwithstanding) breaks only on
`msgID < 0`: an ID-0 zero-field message is processed as a step — the
server tries to unpack COORDS from it and crashes — while a negative-ID
message does terminate the loop.  This theorem exhibits both behaviours at
concrete inputs. -/
theorem c1_zero_id_not_terminating :
    serverLoopRun cfgW [⟨0, []⟩] = ⟨[.recvE ⟨0, []⟩], .crashed .unpackFailed⟩ ∧
    serverLoopRun cfgW [⟨-1, []⟩] =
      ⟨[.recvE ⟨-1, []⟩, .sendE ⟨0, 0, []⟩], .finished⟩ := ⟨rfl, rfl⟩

/-- C2: if the first message the server consumes does not have ID 0, or its
protocol string differs from the compiled-in name `md`, the server reports
the specific violation and the process exits with a non-zero status before
any step message is exchanged (the session trace is just the one receive). -/
theorem c2_handshake_violation (cfg : Config) (h : InMsg) (rest : List InMsg) :
    (h.msgID ≠ 0 →
      serverSessionRun cfg (h :: rest) =
        ⟨[.recvE h], .exited (error "Bad initial client/server handshake")⟩) ∧
    (h.msgID = 0 → ∀ p : String, unpackString h 1 = some p → p ≠ "md" →
      serverSessionRun cfg (h :: rest) =
        ⟨[.recvE h], .exited (error "Mismatch in client/server protocol")⟩) ∧
    (∀ txt, (error txt).exitStatus ≠ 0) := by
  refine ⟨fun hid => ?_, fun hid p hp hpm => ?_, fun txt => by simp [error]⟩
  · simp [serverSessionRun, handshake, hid]
  · simp [serverSessionRun, handshake, hid, hp, hpm]

/-- Witness for C2 at a concrete bad first message (ID 5). -/
theorem c2_witness :
    serverSessionRun cfgW [⟨5, []⟩] =
      ⟨[.recvE ⟨5, []⟩], .exited (error "Bad initial client/server handshake")⟩ :=
  (c2_handshake_violation cfgW ⟨5, []⟩ []).1 (by decide)

/-- C3: on a handshake message with ID 0 whose STRING field is `md`, the
server replies with the ID-0 zero-field acknowledgment and proceeds to the
step loop. -/
theorem c3_handshake_success (cfg : Config) (h : InMsg) (rest : List InMsg)
    (hid : h.msgID = 0) (hp : unpackString h 1 = some "md") :
    serverSessionRun cfg (h :: rest) =
      ⟨.recvE h :: .sendE ⟨0, 0, []⟩ :: (serverLoopRun cfg rest).trace,
        (serverLoopRun cfg rest).outcome⟩ := by
  simp [serverSessionRun, handshake, hid, hp]

/-- Witness for C3 at the concrete `md` handshake message. -/
theorem c3_witness :
    serverSessionRun cfgW [mdMsg] =
      ⟨.recvE mdMsg :: .sendE ⟨0, 0, []⟩ :: (serverLoopRun cfgW []).trace,
        (serverLoopRun cfgW []).outcome⟩ :=
  c3_handshake_success cfgW mdMsg [] rfl rfl

/-- C4: a negative message ID received in the step loop terminates the
loop; the external computation is not invoked for it (the trace holds no
`vaspE` event) and the final sent message is the ID-0 zero-field one. -/
theorem c4_negative_terminates (cfg : Config) (m : InMsg) (rest : List InMsg)
    (hneg : m.msgID < 0) :
    serverLoopRun cfg (m :: rest) =
      ⟨[.recvE m, .sendE ⟨0, 0, []⟩], .finished⟩ := by
  simp [serverLoopRun, hneg]

/-- Witness for C4 at message ID -1. -/
theorem c4_witness :
    serverLoopRun cfgW [⟨-1, []⟩] =
      ⟨[.recvE ⟨-1, []⟩, .sendE ⟨0, 0, []⟩], .finished⟩ :=
  c4_negative_terminates cfgW ⟨-1, []⟩ [] (by decide)

/-- C5: every processed step request gets exactly one reply with the same
message ID and exactly three fields: FORCES (type 4 = double, declared
length `3*natoms`), ENERGY (scalar double), VIRIAL (6 doubles). -/
theorem c5_step_response (cfg : Config) (m : InMsg) (coords : List ℚ)
    (out : OutMsg) (hok : serverStep cfg m = .ok (coords, out)) :
    out.msgID = m.msgID ∧ out.nfield = 3 ∧
    out.fields = [⟨FORCES, 4, 3 * cfg.natoms, (cfg.ext coords).2.1⟩,
      ⟨ENERGY, 4, 1, [(cfg.ext coords).1]⟩,
      ⟨VIRIAL, 4, 6, (cfg.ext coords).2.2⟩] := by
  unfold serverStep at hok
  split at hok
  · exact absurd hok (by simp)
  · split at hok
    · exact absurd hok (by simp)
    · simp only [Except.ok.injEq, Prod.mk.injEq] at hok
      obtain ⟨hc, ho⟩ := hok
      subst hc
      subst ho
      exact ⟨rfl, rfl, rfl⟩

/-- Witness for C5: a concrete successful step on the two-atom config. -/
theorem c5_witness :
    (⟨7, 3, [⟨1, 4, 6, []⟩, ⟨2, 4, 1, [0]⟩, ⟨3, 4, 6, []⟩]⟩ : OutMsg).msgID =
        (⟨7, [⟨9, 4, .floats [1, 2, 3, 4, 5, 6]⟩]⟩ : InMsg).msgID ∧
      (⟨7, 3, [⟨1, 4, 6, []⟩, ⟨2, 4, 1, [0]⟩, ⟨3, 4, 6, []⟩]⟩ : OutMsg).nfield = 3 ∧
      (⟨7, 3, [⟨1, 4, 6, []⟩, ⟨2, 4, 1, [0]⟩, ⟨3, 4, 6, []⟩]⟩ : OutMsg).fields =
        [⟨FORCES, 4, 3 * cfgW.natoms, (cfgW.ext [1, 2, 3, 4, 5, 6]).2.1⟩,
          ⟨ENERGY, 4, 1, [(cfgW.ext [1, 2, 3, 4, 5, 6]).1]⟩,
          ⟨VIRIAL, 4, 6, (cfgW.ext [1, 2, 3, 4, 5, 6]).2.2⟩] :=
  c5_step_response cfgW ⟨7, [⟨9, 4, .floats [1, 2, 3, 4, 5, 6]⟩]⟩
    [1, 2, 3, 4, 5, 6] ⟨7, 3, [⟨1, 4, 6, []⟩, ⟨2, 4, 1, [0]⟩, ⟨3, 4, 6, []⟩]⟩ rfl

/-- C6 counterexample: the claim says the mismatch failure is logged with
both protocol names.  The code prints one fixed diagnostic for every
client protocol name — two distinct client names produce identical output,
so the output cannot contain the client's name. -/
theorem c6_counterexample :
    handshake ⟨0, [⟨1, 5, .str "aa"⟩]⟩ =
        some (.fatal (error "Mismatch in client/server protocol")) ∧
    handshake ⟨0, [⟨1, 5, .str "bb"⟩]⟩ =
        some (.fatal (error "Mismatch in client/server protocol")) ∧
    "aa" ≠ "bb" := ⟨rfl, rfl, by decide⟩

/-- C6 amended: on a handshake protocol-name mismatch the failure is
reported with the fixed message `ERROR: Mismatch in client/server protocol`
(naming neither protocol) and the process exits with status 1 (non-zero). -/
theorem c6_amended_log (m : InMsg) (p : String) (hid : m.msgID = 0)
    (hp : unpackString m 1 = some p) (hpm : p ≠ "md") :
    handshake m = some (.fatal (error "Mismatch in client/server protocol")) ∧
    (error "Mismatch in client/server protocol").output =
      "ERROR: Mismatch in client/server protocol" ∧
    (error "Mismatch in client/server protocol").exitStatus = 1 := by
  refine ⟨?_, rfl, rfl⟩
  simp [handshake, hid, hp, hpm]

/-- Witness for the amended C6 at client protocol name `xx`. -/
theorem c6_witness :
    handshake ⟨0, [⟨1, 5, .str "xx"⟩]⟩ =
        some (.fatal (error "Mismatch in client/server protocol")) ∧
    (error "Mismatch in client/server protocol").output =
      "ERROR: Mismatch in client/server protocol" ∧
    (error "Mismatch in client/server protocol").exitStatus = 1 :=
  c6_amended_log ⟨0, [⟨1, 5, .str "xx"⟩]⟩ "xx" rfl rfl (by decide)

/-- C7: over any whole session (handshake included) the server's wire
traffic strictly alternates: each receive is followed by at most one send,
the server never initiates, and never sends twice without an intervening
receive. -/
theorem c7_strict_alternation (cfg : Config) (msgs : List InMsg) :
    recvThenSend (comms (serverSessionRun cfg msgs).trace) = true := by
  cases msgs with
  | nil => rfl
  | cons h rest =>
    cases hh : handshake h with
    | none => simp [serverSessionRun, hh, comms]
    | some r =>
      cases r with
      | fatal t => simp [serverSessionRun, hh, comms]
      | accepted ack =>
        simpa [serverSessionRun, hh, comms] using loop_alternates cfg rest

/-- C8: `vasprun_read` returns the energy of the `e_0_energy` entry of the
last self-consistent step, the forces flattened in file order, and the
6-component virial `[sxx, syy, szz, sxy, sxz, syz]` with each off-diagonal
component the average of the two corresponding stress-tensor entries. -/
theorem c8_vasprun_read (scsteps : List SCStep) (varrays : List Varray)
    (ls : SCStep) (items : List (String × String)) (evs : List ℚ) (e : ℚ)
    (fv sv : Varray) (frows : List (List ℚ)) (a b c d f g h i j : ℚ)
    (hlast : scsteps.getLast? = some ls)
    (hen : ls.energy = some items)
    (hevs : ((items.filter (fun it => it.1 == "e_0_energy")).map Prod.snd).mapM
      parseFloat? = some evs)
    (he : evs.getLast? = some e)
    (hfv : varrays.filter (fun v => v.name == "forces") = [fv])
    (hfrows : fv.rows.mapM parseRow = some frows)
    (hsv : varrays.filter (fun v => v.name == "stress") = [sv])
    (hsrows : sv.rows.mapM parseRow = some [[a, b, c], [d, f, g], [h, i, j]]) :
    vasprun_read scsteps varrays =
      some (e, frows.flatten,
        [a, f, j, (1 / 2 : ℚ) * (b + d), (1 / 2 : ℚ) * (c + h),
          (1 / 2 : ℚ) * (g + i)]) := by
  have hre : readEnergy items = some e := by
    unfold readEnergy
    rw [hevs]
    simpa using he
  have hrf : readForces varrays = some frows.flatten := by
    unfold readForces
    rw [hfv, List.foldlM_cons]
    simp only [hfrows, Option.bind_eq_bind', Option.some_bind, Option.pure_def,
      List.foldlM_nil, List.nil_append]
  have hrs : readStress varrays =
      some [a, f, j, (1 / 2 : ℚ) * (b + d), (1 / 2 : ℚ) * (c + h),
        (1 / 2 : ℚ) * (g + i)] := by
    unfold readStress
    rw [hsv, List.foldlM_cons]
    simp only [hsrows, Option.bind_eq_bind', Option.some_bind, Option.pure_def,
      List.foldlM_nil, stressFromTensor_explicit]
  unfold vasprun_read
  rw [hlast]
  simp only [hen, hre, hrf, hrs, Option.bind_eq_bind', Option.some_bind,
    Option.pure_def]

/-- Witness for C8 on a one-scstep, one-forces, one-stress vasprun. -/
theorem c8_witness :
    vasprun_read [⟨some [("e_fr_energy", "9"), ("e_0_energy", "7")]⟩]
        [⟨"forces", ["1 2 3", "4 5 6"]⟩, ⟨"stress", ["1 2 3", "4 5 6", "7 8 9"]⟩] =
      some (7, ([[1, 2, 3], [4, 5, 6]] : List (List ℚ)).flatten,
        [1, 5, 9, (1 / 2 : ℚ) * (2 + 4), (1 / 2 : ℚ) * (3 + 7),
          (1 / 2 : ℚ) * (6 + 8)]) :=
  c8_vasprun_read _ _ ⟨some [("e_fr_energy", "9"), ("e_0_energy", "7")]⟩
    [("e_fr_energy", "9"), ("e_0_energy", "7")] [7] 7
    ⟨"forces", ["1 2 3", "4 5 6"]⟩ ⟨"stress", ["1 2 3", "4 5 6", "7 8 9"]⟩
    [[1, 2, 3], [4, 5, 6]] 1 2 3 4 5 6 7 8 9
    (by decide) rfl (by decide) (by decide) (by decide) (by decide) (by decide)
    (by decide)

/-- C9: with a number of command-line arguments other than exactly two
after the script name, or a mode that is neither `file` nor `zmq`, the
program prints the syntax message and exits with status 1, never reaching
the transport-opening branches. -/
theorem c9_bad_args (argv : List String)
    (hbad : argv.length ≠ 3 ∨ (argv.getD 1 "" ≠ "file" ∧ argv.getD 1 "" ≠ "zmq")) :
    parse_args argv = .error ⟨syntaxMsg, 1⟩ ∧
    (ProcTermination.mk syntaxMsg 1).exitStatus ≠ 0 := by
  refine ⟨?_, by simp⟩
  unfold parse_args
  dsimp only
  split_ifs with h1 h2 h3
  · rfl
  · rcases hbad with hl | ⟨hf, hz⟩
    · exact absurd hl h1
    · exact absurd h2 hf
  · rcases hbad with hl | ⟨hf, hz⟩
    · exact absurd hl h1
    · exact absurd h3 hz
  · rfl

/-- Witness for C9 with no arguments after the script name. -/
theorem c9_witness :
    parse_args ["vasp_wrap.py"] = .error ⟨syntaxMsg, 1⟩ ∧
    (ProcTermination.mk syntaxMsg 1).exitStatus ≠ 0 :=
  c9_bad_args ["vasp_wrap.py"] (Or.inl (by decide))

/-- C10: the step handler substitutes the fixed two-entry type list
`2*[1]`; for a POSCAR whose natoms exceeds 2 (which forces at least one
type on line 6), `poscar_write` indexes past the end of that list, so no
step request can ever be answered — `serverStep` never returns `.ok`. -/
theorem c10_natoms_gt_two (ps : List String) (natoms ntypes : Int)
    (box : List ℚ) (hsetup : vasp_setup ps = some (natoms, ntypes, box))
    (h3 : 2 < natoms) (psold : List String)
    (ext : List ℚ → ℚ × List ℚ × List ℚ) (m : InMsg) (r : List ℚ × OutMsg) :
    serverStep ⟨natoms, ntypes, box, psold, ext⟩ m ≠ .ok r := by
  intro hok
  have hnt : 1 ≤ ntypes := vasp_setup_ntypes_pos hsetup (by omega)
  unfold serverStep at hok
  split at hok
  · exact absurd hok (by simp)
  next coords hu =>
    split at hok
    · exact absurd hok (by simp)
    next w hp =>
      rw [poscar_write_eq_none (poscarBody_stepTypes_none h3 hnt coords)] at hp
      exact Option.noConfusion hp

/-- Witness for C10 on a three-atom POSCAR. -/
theorem c10_witness :
    serverStep ⟨3, 1, [5, 5, 5], [], ext0⟩ ⟨1, []⟩ ≠ .ok ([], ⟨0, 0, []⟩) :=
  c10_natoms_gt_two ["c", "1", "5 0 0", "0 5 0", "0 0 5", "Si", "3"] 3 1
    [5, 5, 5] (by decide) (by decide) [] ext0 ⟨1, []⟩ ([], ⟨0, 0, []⟩)

end VaspWrap
